import Mathlib

/-!
Verification of the ServiceNow incident lookup pipeline (src/main.py).

The source is a small Streamlit app around one class method,
ServiceNowAPIWrapper.get_incident_status, and one formatting closure,
fetch_status.  We embed the Python shallowly:

* JSON values are the inductive type Json below; Python dictionaries are
  association lists.
* Python operations that can raise (attribute access on a non-dict,
  subscripting) return Except PyExn.
* The HTTP transport is an explicit function from requests to responses;
  get_incident_status_traced also returns the list of requests it issued, so
  that statements about the number and shape of outbound calls are possible.
* Python truthiness and the str() conversion used by f-strings are modelled
  by Json.truthy and pyStr (string escaping inside repr of containers is
  simplified to plain quotes; no claim exercises container rendering).
-/

/-- JSON values as delivered by the remote system, and also the value type of
the Python dictionaries the lookup code builds. -/
inductive Json where
  | null : Json
  | bool : Bool → Json
  | num : Int → Json
  | str : String → Json
  | arr : List Json → Json
  | obj : List (String × Json) → Json

/-- Python exceptions that the embedded code can raise. -/
inductive PyExn where
  | attributeError : PyExn
  | typeError : PyExn
  | keyError : PyExn
  | indexError : PyExn
deriving DecidableEq

/-- First-match association-list lookup, the model of Python dict lookup. -/
def lookupKey : List (String × Json) → String → Option Json
  | [], _ => none
  | (k, v) :: rest, key => if k = key then some v else lookupKey rest key

/-- Python membership test on a dictionary, as in the source's check of the
error key. -/
def hasKey (kvs : List (String × Json)) (k : String) : Bool :=
  (lookupKey kvs k).isSome

/-- Python truthiness of a JSON value: None, False, 0, empty string, empty
list and empty dict are falsy, everything else truthy. -/
def Json.truthy : Json → Bool
  | .null => false
  | .bool b => b
  | .num n => n != 0
  | .str s => s != ""
  | .arr l => !l.isEmpty
  | .obj l => !l.isEmpty

/-- Python d.get(k): None when the key is absent; raises AttributeError when
the receiver is not a dictionary. -/
def Json.pyGet : Json → String → Except PyExn Json
  | .obj kvs, k => .ok ((lookupKey kvs k).getD .null)
  | _, _ => .error .attributeError

/-- Python d.get(k, default): like Json.pyGet but with an explicit default. -/
def Json.pyGetD : Json → String → Json → Except PyExn Json
  | .obj kvs, k, d => .ok ((lookupKey kvs k).getD d)
  | _, _, _ => .error .attributeError

/-- Python x[0] on a JSON value: head of a list (IndexError when empty),
first character of a string, KeyError on a dict (JSON keys are strings, so an
integer key is never present), TypeError otherwise. -/
def pyIndex0 : Json → Except PyExn Json
  | .arr [] => .error .indexError
  | .arr (x :: _) => .ok x
  | .str s =>
    match s.data with
    | [] => .error .indexError
    | c :: _ => .ok (.str (String.mk [c]))
  | .obj _ => .error .keyError
  | _ => .error .typeError

/-- Python d[k] on a dictionary built by the lookup code: KeyError when the
key is absent. -/
def dictSubscript (kvs : List (String × Json)) (k : String) : Except PyExn Json :=
  match lookupKey kvs k with
  | some v => .ok v
  | none => .error .keyError

mutual
/-- Python repr of a JSON value (string escaping simplified to plain quotes;
only reachable through container rendering, which no source path exercises on
the fields actually present). -/
def pyRepr : Json → String
  | .null => "None"
  | .bool true => "True"
  | .bool false => "False"
  | .num n => toString n
  | .str s => "\x27" ++ s ++ "\x27"
  | .arr l => "[" ++ pyReprElems l ++ "]"
  | .obj l => "\x7b" ++ pyReprPairs l ++ "\x7d"

/-- Comma-separated reprs of the elements of a JSON list. -/
def pyReprElems : List Json → String
  | [] => ""
  | [j] => pyRepr j
  | j :: j2 :: js => pyRepr j ++ ", " ++ pyReprElems (j2 :: js)

/-- Comma-separated key/value reprs of a JSON object. -/
def pyReprPairs : List (String × Json) → String
  | [] => ""
  | [(k, v)] => "\x27" ++ k ++ "\x27: " ++ pyRepr v
  | (k, v) :: p :: ps => "\x27" ++ k ++ "\x27: " ++ pyRepr v ++ ", " ++ pyReprPairs (p :: ps)
end

/-- Python str() of a JSON value, the conversion applied by f-string
interpolation: a string renders as itself, None as the text None. -/
def pyStr : Json → String
  | .str s => s
  | j => pyRepr j

/-- One outbound HTTP request as issued by the lookup code. -/
structure Request where
  method : String
  url : String
  headers : List (String × String)
  auth : String × String
deriving DecidableEq

/-- One HTTP response as delivered by the transport: a status code and the
parsed JSON body (the claims under consideration presuppose a response whose
body parsed as JSON). -/
structure HttpResponse where
  status_code : Nat
  body : Json

/-- The ServiceNowAPIWrapper object: its constructor stores the instance URL
and the credential pair. -/
structure ServiceNowAPIWrapper where
  instance_url : String
  auth : String × String

/-- The constructor ServiceNowAPIWrapper(instance_url, username, password). -/
def ServiceNowAPIWrapper.make (instance_url username password : String) :
    ServiceNowAPIWrapper :=
  ⟨instance_url, (username, password)⟩

/-- Lines 34-38 of the source: normalize the polymorphic assigned_to value.
A dict resolves to its display_value with default the string N/A; any other
value is kept when truthy and replaced by N/A otherwise. -/
def normalize_assigned_to (assigned_to : Json) : Json :=
  match assigned_to with
  | .obj kvs => (lookupKey kvs "display_value").getD (.str "N/A")
  | j => if j.truthy then j else .str "N/A"

/-- The body of get_incident_status after the response has arrived (lines
30-51 of the source): on 200 read the result list (default empty), branch on
its truthiness, extract the six fields from the first element; otherwise
build the API-error dictionary. -/
def get_incident_status_result (response : HttpResponse) :
    Except PyExn (List (String × Json)) :=
  if response.status_code = 200 then do
    let result ← response.body.pyGetD "result" (.arr [])
    if result.truthy then do
      let incident ← pyIndex0 result
      let assigned_to ← incident.pyGet "assigned_to"
      let assigned_to_display := normalize_assigned_to assigned_to
      let number ← incident.pyGet "number"
      let short_description ← incident.pyGet "short_description"
      let state ← incident.pyGet "state"
      let priority ← incident.pyGet "priority"
      let updated ← incident.pyGet "sys_updated_on"
      pure [("Number", number), ("Short Description", short_description),
            ("State", state), ("Priority", priority),
            ("Assigned To", assigned_to_display), ("Updated", updated)]
    else
      pure [("error", Json.str "Incident not found")]
  else
    pure [("error", Json.str ("API Error: " ++ toString response.status_code))]

/-- ServiceNowAPIWrapper.get_incident_status (lines 26-51): build the URL and
headers, issue one GET through the transport, and process the response.  The
first component of the result is the list of requests issued, in order. -/
def get_incident_status_traced (transport : Request → HttpResponse)
    (self : ServiceNowAPIWrapper) (incident_number : String) :
    List Request × Except PyExn (List (String × Json)) :=
  let url := self.instance_url ++ "/api/now/table/incident?sysparm_query=number="
      ++ incident_number ++ "&sysparm_limit=1"
  let headers := [("Accept", "application/json")]
  let req : Request := ⟨"GET", url, headers, self.auth⟩
  ([req], get_incident_status_result (transport req))

/-- The formatting half of fetch_status (lines 75-85): the error line when the
dictionary carries the error key, otherwise the six labelled lines. -/
def render (result : List (String × Json)) : Except PyExn String :=
  if hasKey result "error" then do
    let e ← dictSubscript result "error"
    pure ("❌ " ++ pyStr e)
  else do
    let number ← dictSubscript result "Number"
    let short_description ← dictSubscript result "Short Description"
    let state ← dictSubscript result "State"
    let priority ← dictSubscript result "Priority"
    let assigned ← dictSubscript result "Assigned To"
    let updated ← dictSubscript result "Updated"
    pure ("📄 Incident: " ++ pyStr number ++ "\n"
      ++ "📝 Description: " ++ pyStr short_description ++ "\n"
      ++ "📌 State: " ++ pyStr state ++ "\n"
      ++ "⚠️ Priority: " ++ pyStr priority ++ "\n"
      ++ "👤 Assigned To: " ++ pyStr (if assigned.truthy then assigned else .str "N/A") ++ "\n"
      ++ "🕒 Last Updated: " ++ pyStr updated)

/-- fetch_status (lines 72-85) with its request trace: one lookup followed by
formatting. -/
def fetch_status_traced (transport : Request → HttpResponse)
    (snow_api : ServiceNowAPIWrapper) (incident_number : String) :
    List Request × Except PyExn String :=
  let t := get_incident_status_traced transport snow_api incident_number
  (t.1, t.2.bind render)

/-- fetch_status as the tool function: the text outcome alone. -/
def fetch_status (transport : Request → HttpResponse)
    (snow_api : ServiceNowAPIWrapper) (incident_number : String) :
    Except PyExn String :=
  (fetch_status_traced transport snow_api incident_number).2

/-- A registered tool: a named callable capability (lines 88-94). -/
structure Tool where
  name : String
  func : String → Except PyExn String
  description : String

/-- The tool list built by the source: exactly one tool, wrapping
fetch_status. -/
def tools (transport : Request → HttpResponse) (snow_api : ServiceNowAPIWrapper) :
    List Tool :=
  [⟨"ServiceNow Incident Lookup", fetch_status transport snow_api,
    "Gets incident status from ServiceNow by incident number"⟩]

/-- Modelled from the spec: the single-step agent loop is provided by an
external agent library and is not part of this repository; per the spec the
loop invokes its sole registered tool once on the input string and returns
the completion service's paraphrase of the tool output.  The completion
service is the opaque paraphrase parameter. -/
def singleToolAgentRun (paraphrase : String → String) (ts : List Tool)
    (query : String) : Except PyExn String :=
  match ts with
  | [t] => (t.func query).map paraphrase
  | _ => .error .typeError

/-- runQuery: agent.run on the incident identifier (line 107), with the agent
built over the source's tool list. -/
def runQuery (paraphrase : String → String) (transport : Request → HttpResponse)
    (snow_api : ServiceNowAPIWrapper) (incident_id : String) :
    Except PyExn String :=
  singleToolAgentRun paraphrase (tools transport snow_api) incident_id

/-- What the UI shows at the end of one interaction. -/
inductive AppOutcome where
  | info (msg : String)
  | success (text : String)
  | failure (msg : String)
deriving DecidableEq

/-- Lines 67-114 of the source: the credential guard and the dispatch.  The
agent parameter abstracts the external agent loop; it receives the traced
tool and the incident identifier and returns the trace of requests the tool
calls issued together with the textual outcome.  When any of the four inputs
is empty (Python falsy for strings) the guard takes the else branch: no
wrapper is built, no tool is registered, no request is issued, and the info
prompt is shown. -/
def app
    (agent : (String → List Request × Except PyExn String) → String →
      List Request × Except PyExn String)
    (transport : Request → HttpResponse)
    (instance_url username password incident_id : String) :
    List Request × AppOutcome :=
  if incident_id ≠ "" ∧ instance_url ≠ "" ∧ username ≠ "" ∧ password ≠ "" then
    let snow_api := ServiceNowAPIWrapper.make instance_url username password
    let t := agent (fetch_status_traced transport snow_api) incident_id
    match t.2 with
    | .ok text => (t.1, .success text)
    | .error _ => (t.1, .failure "❌ Error while processing request.")
  else
    ([], .info "ℹ️ Please enter your ServiceNow credentials and an incident ID.")

/-- Split a character list on the newline character, accumulating the current
line in reverse. -/
def splitLinesAux : List Char → List Char → List (List Char)
  | [], acc => [acc.reverse]
  | c :: cs, acc =>
    if c = '\n' then acc.reverse :: splitLinesAux cs []
    else splitLinesAux cs (c :: acc)

/-- The lines of a string, splitting on the newline character; a string with
no newline is a single line. -/
def linesOf (s : String) : List String :=
  (splitLinesAux s.data []).map String.mk

/-- The spec's IncidentRecord data model: six string fields produced by a
successful lookup. -/
structure IncidentRecord where
  number : String
  shortDescription : String
  state : String
  priority : String
  assignedTo : String
  updatedAt : String

/-- The dictionary that get_incident_status returns on success, with the
record's fields as its values at the source's keys. -/
def IncidentRecord.toDict (r : IncidentRecord) : List (String × Json) :=
  [("Number", .str r.number), ("Short Description", .str r.shortDescription),
   ("State", .str r.state), ("Priority", .str r.priority),
   ("Assigned To", .str r.assignedTo), ("Updated", .str r.updatedAt)]

/-- The error dictionary: what get_incident_status returns on the two
recovered failure paths. -/
def isErrorDict (d : List (String × Json)) : Bool :=
  hasKey d "error"

/-- The record dictionary shape: all six field keys present. -/
def isRecordDict (d : List (String × Json)) : Bool :=
  hasKey d "Number" && hasKey d "Short Description" && hasKey d "State"
    && hasKey d "Priority" && hasKey d "Assigned To" && hasKey d "Updated"

theorem splitLinesAux_append (a : List Char) (h : '\n' ∉ a) :
    ∀ (acc b : List Char),
      splitLinesAux (a ++ '\n' :: b) acc = (acc.reverse ++ a) :: splitLinesAux b [] := by
  induction a with
  | nil => intro acc b; simp [splitLinesAux]
  | cons c cs ih =>
    intro acc b
    have hc : ¬(c = '\n') := fun e => h (e ▸ List.mem_cons_self c cs)
    have hcs : '\n' ∉ cs := fun m => h (List.mem_cons_of_mem _ m)
    simp [splitLinesAux, hc, ih hcs]

theorem splitLinesAux_no_newline (a : List Char) (h : '\n' ∉ a) :
    ∀ acc, splitLinesAux a acc = [acc.reverse ++ a] := by
  induction a with
  | nil => intro acc; simp [splitLinesAux]
  | cons c cs ih =>
    intro acc
    have hc : ¬(c = '\n') := fun e => h (e ▸ List.mem_cons_self c cs)
    have hcs : '\n' ∉ cs := fun m => h (List.mem_cons_of_mem _ m)
    simp [splitLinesAux, hc, ih hcs]

theorem linesOf_cons (a b : String) (h : '\n' ∉ a.data) :
    linesOf ((a ++ "\n") ++ b) = a :: linesOf b := by
  unfold linesOf
  have hd : ((a ++ "\n") ++ b).data = a.data ++ '\n' :: b.data := by
    simp [String.data_append]
  rw [hd, splitLinesAux_append a.data h]
  simp

theorem linesOf_single (a : String) (h : '\n' ∉ a.data) : linesOf a = [a] := by
  unfold linesOf
  rw [splitLinesAux_no_newline a.data h]
  simp

@[simp] theorem exceptBindOk {α β ε : Type} (x : α) (f : α → Except ε β) :
    (Except.ok x : Except ε α) >>= f = f x := rfl

@[simp] theorem exceptBindError {α β ε : Type} (e : ε) (f : α → Except ε β) :
    (Except.error e : Except ε α) >>= f = Except.error e := rfl

@[simp] theorem exceptPureEq {α ε : Type} (x : α) :
    (pure x : Except ε α) = Except.ok x := rfl

/-- The request that get_incident_status builds from the wrapper fields and
the incident number. -/
def requestFor (self : ServiceNowAPIWrapper) (incident_number : String) : Request :=
  ⟨"GET",
    self.instance_url ++ "/api/now/table/incident?sysparm_query=number="
      ++ incident_number ++ "&sysparm_limit=1",
    [("Accept", "application/json")], self.auth⟩

theorem get_incident_status_traced_eq (transport : Request → HttpResponse)
    (self : ServiceNowAPIWrapper) (n : String) :
    get_incident_status_traced transport self n
      = ([requestFor self n], get_incident_status_result (transport (requestFor self n))) := rfl

/-- C7: every invocation of fetch issues exactly one outbound HTTP GET whose
URL is the instance URL followed by the incident table path with the
sysparm_query and sysparm_limit parameters, the incident number embedded
verbatim, with the Accept JSON header and the caller-supplied basic-auth
credential pair. -/
theorem fetch_single_get_request (transport : Request → HttpResponse)
    (instance_url username password n : String) :
    (get_incident_status_traced transport
        (ServiceNowAPIWrapper.make instance_url username password) n).1
      = [⟨"GET",
          instance_url ++ "/api/now/table/incident?sysparm_query=number="
            ++ n ++ "&sysparm_limit=1",
          [("Accept", "application/json")], (username, password)⟩] := rfl

/-- C2: for every non-200 status code S, fetch returns the error dictionary
whose message is the string API Error followed by the numeric code, with no
distinction between 4xx and 5xx codes. -/
theorem fetch_non200_api_error (transport : Request → HttpResponse)
    (self : ServiceNowAPIWrapper) (n : String) (S : Nat) (body : Json)
    (hresp : transport (requestFor self n) = ⟨S, body⟩) (hS : S ≠ 200) :
    (get_incident_status_traced transport self n).2
      = .ok [("error", Json.str ("API Error: " ++ toString S))] := by
  rw [get_incident_status_traced_eq, hresp]
  simp [get_incident_status_result, hS]

theorem fetch_non200_api_error_witness :
    (404 : Nat) ≠ 200 ∧
      (get_incident_status_traced (fun _ => ⟨404, Json.null⟩)
          (ServiceNowAPIWrapper.make "https://x" "u" "p") "INC1").2
        = .ok [("error", Json.str ("API Error: " ++ toString (404 : Nat)))] :=
  ⟨by decide,
    fetch_non200_api_error (fun _ => ⟨404, Json.null⟩)
      (ServiceNowAPIWrapper.make "https://x" "u" "p") "INC1" 404 Json.null rfl
      (by decide)⟩

/-- C3: for every 200 response whose result list is empty, fetch returns the
error dictionary with message Incident not found. -/
theorem fetch_empty_result_not_found (transport : Request → HttpResponse)
    (self : ServiceNowAPIWrapper) (n : String) (bodykv : List (String × Json))
    (hresp : transport (requestFor self n) = ⟨200, Json.obj bodykv⟩)
    (hres : lookupKey bodykv "result" = some (Json.arr [])) :
    (get_incident_status_traced transport self n).2
      = .ok [("error", Json.str "Incident not found")] := by
  rw [get_incident_status_traced_eq, hresp]
  simp [get_incident_status_result, Json.pyGetD, hres, Json.truthy]

theorem fetch_empty_result_not_found_witness :
    (get_incident_status_traced (fun _ => ⟨200, Json.obj [("result", Json.arr [])]⟩)
        (ServiceNowAPIWrapper.make "https://x" "u" "p") "INC1").2
      = .ok [("error", Json.str "Incident not found")] :=
  fetch_empty_result_not_found (fun _ => ⟨200, Json.obj [("result", Json.arr [])]⟩)
    (ServiceNowAPIWrapper.make "https://x" "u" "p") "INC1"
    [("result", Json.arr [])] rfl rfl

/-- C1: for every 200 response with a non-empty result list whose first
element is an object, fetch returns the record dictionary whose six fields
are exactly the values extracted, or defaulted, from that first element
(the assigned-to value going through the source's normalization), and no
error entry is produced. -/
theorem fetch_success_record (transport : Request → HttpResponse)
    (self : ServiceNowAPIWrapper) (n : String)
    (bodykv rowkv : List (String × Json)) (rest : List Json)
    (hresp : transport (requestFor self n) = ⟨200, Json.obj bodykv⟩)
    (hres : lookupKey bodykv "result" = some (Json.arr (Json.obj rowkv :: rest))) :
    ∃ d, (get_incident_status_traced transport self n).2 = .ok d ∧
      d = [("Number", (lookupKey rowkv "number").getD .null),
           ("Short Description", (lookupKey rowkv "short_description").getD .null),
           ("State", (lookupKey rowkv "state").getD .null),
           ("Priority", (lookupKey rowkv "priority").getD .null),
           ("Assigned To", normalize_assigned_to ((lookupKey rowkv "assigned_to").getD .null)),
           ("Updated", (lookupKey rowkv "sys_updated_on").getD .null)] ∧
      hasKey d "error" = false := by
  refine ⟨_, ?_, rfl, ?_⟩
  · rw [get_incident_status_traced_eq, hresp]
    simp [get_incident_status_result, Json.pyGetD, hres, Json.truthy, pyIndex0, Json.pyGet]
  · simp [hasKey, lookupKey]

theorem fetch_success_record_witness :
    ∃ d, (get_incident_status_traced
        (fun _ => ⟨200, Json.obj [("result", Json.arr [Json.obj [
          ("number", Json.str "INC0010001"), ("short_description", Json.str "VPN down"),
          ("state", Json.str "2"), ("priority", Json.str "1"),
          ("assigned_to", Json.obj [("display_value", Json.str "Bob")]),
          ("sys_updated_on", Json.str "2024-01-01 10:00:00")]])]⟩)
        (ServiceNowAPIWrapper.make "https://x" "u" "p") "INC0010001").2 = .ok d ∧
      d = [("Number", (lookupKey [
          ("number", Json.str "INC0010001"), ("short_description", Json.str "VPN down"),
          ("state", Json.str "2"), ("priority", Json.str "1"),
          ("assigned_to", Json.obj [("display_value", Json.str "Bob")]),
          ("sys_updated_on", Json.str "2024-01-01 10:00:00")] "number").getD .null),
        ("Short Description", (lookupKey [
          ("number", Json.str "INC0010001"), ("short_description", Json.str "VPN down"),
          ("state", Json.str "2"), ("priority", Json.str "1"),
          ("assigned_to", Json.obj [("display_value", Json.str "Bob")]),
          ("sys_updated_on", Json.str "2024-01-01 10:00:00")] "short_description").getD .null),
        ("State", (lookupKey [
          ("number", Json.str "INC0010001"), ("short_description", Json.str "VPN down"),
          ("state", Json.str "2"), ("priority", Json.str "1"),
          ("assigned_to", Json.obj [("display_value", Json.str "Bob")]),
          ("sys_updated_on", Json.str "2024-01-01 10:00:00")] "state").getD .null),
        ("Priority", (lookupKey [
          ("number", Json.str "INC0010001"), ("short_description", Json.str "VPN down"),
          ("state", Json.str "2"), ("priority", Json.str "1"),
          ("assigned_to", Json.obj [("display_value", Json.str "Bob")]),
          ("sys_updated_on", Json.str "2024-01-01 10:00:00")] "priority").getD .null),
        ("Assigned To", normalize_assigned_to ((lookupKey [
          ("number", Json.str "INC0010001"), ("short_description", Json.str "VPN down"),
          ("state", Json.str "2"), ("priority", Json.str "1"),
          ("assigned_to", Json.obj [("display_value", Json.str "Bob")]),
          ("sys_updated_on", Json.str "2024-01-01 10:00:00")] "assigned_to").getD .null)),
        ("Updated", (lookupKey [
          ("number", Json.str "INC0010001"), ("short_description", Json.str "VPN down"),
          ("state", Json.str "2"), ("priority", Json.str "1"),
          ("assigned_to", Json.obj [("display_value", Json.str "Bob")]),
          ("sys_updated_on", Json.str "2024-01-01 10:00:00")] "sys_updated_on").getD .null)] ∧
      hasKey d "error" = false :=
  fetch_success_record _ (ServiceNowAPIWrapper.make "https://x" "u" "p") "INC0010001"
    [("result", Json.arr [Json.obj [
      ("number", Json.str "INC0010001"), ("short_description", Json.str "VPN down"),
      ("state", Json.str "2"), ("priority", Json.str "1"),
      ("assigned_to", Json.obj [("display_value", Json.str "Bob")]),
      ("sys_updated_on", Json.str "2024-01-01 10:00:00")]])]
    [("number", Json.str "INC0010001"), ("short_description", Json.str "VPN down"),
      ("state", Json.str "2"), ("priority", Json.str "1"),
      ("assigned_to", Json.obj [("display_value", Json.str "Bob")]),
      ("sys_updated_on", Json.str "2024-01-01 10:00:00")] [] rfl rfl

/-- C4 counterexample: when the row's assigned_to is the plain empty string,
the record's Assigned To field is the string N/A, not the empty string the
claim demands for plain strings. -/
theorem assigned_to_empty_string_counterexample :
    (get_incident_status_traced
        (fun _ => ⟨200, Json.obj [("result",
          Json.arr [Json.obj [("assigned_to", Json.str "")]])]⟩)
        (ServiceNowAPIWrapper.make "https://x" "u" "p") "INC1").2
      = .ok [("Number", Json.null), ("Short Description", Json.null),
             ("State", Json.null), ("Priority", Json.null),
             ("Assigned To", Json.str "N/A"), ("Updated", Json.null)]
    ∧ Json.str "N/A" ≠ Json.str "" :=
  ⟨rfl, by simp⟩

/-- C4 (amended): the record's assignedTo is the row's assigned_to value
normalized as follows: an object carrying a display_value field gives that
display value; a plain non-empty string gives that string; null, an absent
key, or the plain empty string give the string N/A. -/
theorem assigned_to_normalization (transport : Request → HttpResponse)
    (self : ServiceNowAPIWrapper) (n : String)
    (bodykv rowkv : List (String × Json)) (rest : List Json)
    (hresp : transport (requestFor self n) = ⟨200, Json.obj bodykv⟩)
    (hres : lookupKey bodykv "result" = some (Json.arr (Json.obj rowkv :: rest))) :
    ∃ d, (get_incident_status_traced transport self n).2 = .ok d ∧
      (∀ okvs dv, lookupKey rowkv "assigned_to" = some (Json.obj okvs) →
        lookupKey okvs "display_value" = some dv →
        lookupKey d "Assigned To" = some dv) ∧
      (∀ s, lookupKey rowkv "assigned_to" = some (Json.str s) → s ≠ "" →
        lookupKey d "Assigned To" = some (Json.str s)) ∧
      ((lookupKey rowkv "assigned_to" = some Json.null ∨
        lookupKey rowkv "assigned_to" = none ∨
        lookupKey rowkv "assigned_to" = some (Json.str "")) →
        lookupKey d "Assigned To" = some (Json.str "N/A")) := by
  refine ⟨[("Number", (lookupKey rowkv "number").getD .null),
      ("Short Description", (lookupKey rowkv "short_description").getD .null),
      ("State", (lookupKey rowkv "state").getD .null),
      ("Priority", (lookupKey rowkv "priority").getD .null),
      ("Assigned To", normalize_assigned_to ((lookupKey rowkv "assigned_to").getD .null)),
      ("Updated", (lookupKey rowkv "sys_updated_on").getD .null)], ?_, ?_, ?_, ?_⟩
  · rw [get_incident_status_traced_eq, hresp]
    simp [get_incident_status_result, Json.pyGetD, hres, Json.truthy, pyIndex0, Json.pyGet]
  · intro okvs dv h1 h2
    simp [lookupKey, h1, normalize_assigned_to, h2]
  · intro s h1 h2
    simp [lookupKey, h1, normalize_assigned_to, Json.truthy, h2]
  · rintro (h1 | h1 | h1) <;>
      simp [lookupKey, h1, normalize_assigned_to, Json.truthy]

theorem assigned_to_normalization_witness :
    ∃ d, (get_incident_status_traced
        (fun _ => ⟨200, Json.obj [("result",
          Json.arr [Json.obj [("assigned_to", Json.obj [("display_value", Json.str "Alice")])]])]⟩)
        (ServiceNowAPIWrapper.make "https://x" "u" "p") "INC1").2 = .ok d ∧
      (∀ okvs dv,
        lookupKey [("assigned_to", Json.obj [("display_value", Json.str "Alice")])]
          "assigned_to" = some (Json.obj okvs) →
        lookupKey okvs "display_value" = some dv →
        lookupKey d "Assigned To" = some dv) ∧
      (∀ s, lookupKey [("assigned_to", Json.obj [("display_value", Json.str "Alice")])]
          "assigned_to" = some (Json.str s) → s ≠ "" →
        lookupKey d "Assigned To" = some (Json.str s)) ∧
      ((lookupKey [("assigned_to", Json.obj [("display_value", Json.str "Alice")])]
          "assigned_to" = some Json.null ∨
        lookupKey [("assigned_to", Json.obj [("display_value", Json.str "Alice")])]
          "assigned_to" = none ∨
        lookupKey [("assigned_to", Json.obj [("display_value", Json.str "Alice")])]
          "assigned_to" = some (Json.str "")) →
        lookupKey d "Assigned To" = some (Json.str "N/A")) :=
  assigned_to_normalization _ (ServiceNowAPIWrapper.make "https://x" "u" "p") "INC1"
    [("result", Json.arr [Json.obj [("assigned_to",
      Json.obj [("display_value", Json.str "Alice")])]])]
    [("assigned_to", Json.obj [("display_value", Json.str "Alice")])] [] rfl rfl

/-- C5 counterexample: a delivered response with status 200 and the
well-formed JSON body consisting of an empty array makes the lookup raise
AttributeError (the body has no get method), so it yields neither a record
dictionary nor an error dictionary. -/
theorem lookup_dichotomy_counterexample :
    (get_incident_status_traced (fun _ => ⟨200, Json.arr []⟩)
        (ServiceNowAPIWrapper.make "https://x" "u" "p") "INC1").2
      = .error .attributeError := rfl

/-- C5 (amended): for every delivered response that is either non-200, or a
200 whose body is a JSON object and whose result value (empty list when the
key is absent) is falsy or is a list headed by an object, the lookup yields
exactly one of the two dictionary shapes: a record dictionary carrying the
six field keys and no error key, or an error dictionary carrying the error
key and none of the field keys — never both and never neither. -/
theorem lookup_dichotomy (transport : Request → HttpResponse)
    (self : ServiceNowAPIWrapper) (n : String)
    (h : (transport (requestFor self n)).status_code ≠ 200 ∨
      ∃ bodykv, (transport (requestFor self n)).body = Json.obj bodykv ∧
        (((lookupKey bodykv "result").getD (Json.arr [])).truthy = false ∨
          ∃ rowkv rest, (lookupKey bodykv "result").getD (Json.arr [])
            = Json.arr (Json.obj rowkv :: rest))) :
    ∃ d, (get_incident_status_traced transport self n).2 = .ok d ∧
      ((isRecordDict d = true ∧ isErrorDict d = false) ∨
        (isErrorDict d = true ∧ isRecordDict d = false)) := by
  rcases h with h | ⟨bodykv, hb, hc⟩
  · refine ⟨[("error",
        Json.str ("API Error: " ++ toString (transport (requestFor self n)).status_code))],
      ?_, Or.inr ⟨?_, ?_⟩⟩
    · rw [get_incident_status_traced_eq]
      simp [get_incident_status_result, h]
    · simp [isErrorDict, hasKey, lookupKey]
    · simp [isRecordDict, hasKey, lookupKey]
  · by_cases hs : (transport (requestFor self n)).status_code = 200
    · rcases hc with hfalsy | ⟨rowkv, rest, hshape⟩
      · refine ⟨[("error", Json.str "Incident not found")], ?_, Or.inr ⟨?_, ?_⟩⟩
        · rw [get_incident_status_traced_eq]
          simp [get_incident_status_result, hs, hb, Json.pyGetD, hfalsy]
        · simp [isErrorDict, hasKey, lookupKey]
        · simp [isRecordDict, hasKey, lookupKey]
      · refine ⟨[("Number", (lookupKey rowkv "number").getD .null),
          ("Short Description", (lookupKey rowkv "short_description").getD .null),
          ("State", (lookupKey rowkv "state").getD .null),
          ("Priority", (lookupKey rowkv "priority").getD .null),
          ("Assigned To", normalize_assigned_to ((lookupKey rowkv "assigned_to").getD .null)),
          ("Updated", (lookupKey rowkv "sys_updated_on").getD .null)],
          ?_, Or.inl ⟨?_, ?_⟩⟩
        · rw [get_incident_status_traced_eq]
          simp [get_incident_status_result, hs, hb, Json.pyGetD, hshape, Json.truthy,
            pyIndex0, Json.pyGet]
        · simp [isRecordDict, hasKey, lookupKey]
        · simp [isErrorDict, hasKey, lookupKey]
    · refine ⟨[("error",
        Json.str ("API Error: " ++ toString (transport (requestFor self n)).status_code))],
        ?_, Or.inr ⟨?_, ?_⟩⟩
      · rw [get_incident_status_traced_eq]
        simp [get_incident_status_result, hs]
      · simp [isErrorDict, hasKey, lookupKey]
      · simp [isRecordDict, hasKey, lookupKey]

theorem lookup_dichotomy_witness :
    ∃ d, (get_incident_status_traced (fun _ => ⟨500, Json.null⟩)
        (ServiceNowAPIWrapper.make "https://x" "u" "p") "INC1").2 = .ok d ∧
      ((isRecordDict d = true ∧ isErrorDict d = false) ∨
        (isErrorDict d = true ∧ isRecordDict d = false)) :=
  lookup_dichotomy (fun _ => ⟨500, Json.null⟩)
    (ServiceNowAPIWrapper.make "https://x" "u" "p") "INC1" (Or.inl (by decide))

theorem noNL_append (a b : String) (ha : '\n' ∉ a.data) (hb : '\n' ∉ b.data) :
    '\n' ∉ (a ++ b).data := by
  rw [String.data_append]
  intro m
  rcases List.mem_append.mp m with m | m
  · exact ha m
  · exact hb m

/-- C6 counterexample: a record whose number field contains a newline renders
to seven lines, not six, so the six-line property does not hold for every
record. -/
theorem render_six_lines_counterexample :
    (render (IncidentRecord.mk "a\nb" "x" "y" "z" "w" "v").toDict).map
      (fun s => (linesOf s).length) = .ok 7 := rfl

/-- C6 (amended): render is a deterministic text template: for every
IncidentRecord none of whose fields contains a newline character it produces
exactly six lines, one per field, each prefixed by its fixed label, in the
fixed order Incident number, Description, State, Priority, Assigned To, Last
Updated (a falsy assigned-to rendering as N/A); and for every error message
without a newline it produces the single line carrying the message. -/
theorem render_template (r : IncidentRecord) (m : String)
    (h1 : '\n' ∉ r.number.data) (h2 : '\n' ∉ r.shortDescription.data)
    (h3 : '\n' ∉ r.state.data) (h4 : '\n' ∉ r.priority.data)
    (h5 : '\n' ∉ r.assignedTo.data) (h6 : '\n' ∉ r.updatedAt.data)
    (hm : '\n' ∉ m.data) :
    (∃ s, render r.toDict = .ok s ∧
      linesOf s = ["📄 Incident: " ++ r.number, "📝 Description: " ++ r.shortDescription,
        "📌 State: " ++ r.state, "⚠️ Priority: " ++ r.priority,
        "👤 Assigned To: " ++ (if r.assignedTo = "" then "N/A" else r.assignedTo),
        "🕒 Last Updated: " ++ r.updatedAt])
    ∧ render [("error", Json.str m)] = .ok ("❌ " ++ m)
    ∧ linesOf ("❌ " ++ m) = ["❌ " ++ m] := by
  refine ⟨?_, ?_, ?_⟩
  · by_cases ha : r.assignedTo = ""
    · refine ⟨"📄 Incident: " ++ r.number ++ "\n"
        ++ "📝 Description: " ++ r.shortDescription ++ "\n"
        ++ "📌 State: " ++ r.state ++ "\n"
        ++ "⚠️ Priority: " ++ r.priority ++ "\n"
        ++ "👤 Assigned To: " ++ "N/A" ++ "\n"
        ++ "🕒 Last Updated: " ++ r.updatedAt, ?_, ?_⟩
      · simp [render, IncidentRecord.toDict, hasKey, lookupKey, dictSubscript, pyStr,
          Json.truthy, ha]
      · rw [if_pos ha]
        have hs : "📄 Incident: " ++ r.number ++ "\n"
              ++ "📝 Description: " ++ r.shortDescription ++ "\n"
              ++ "📌 State: " ++ r.state ++ "\n"
              ++ "⚠️ Priority: " ++ r.priority ++ "\n"
              ++ "👤 Assigned To: " ++ "N/A" ++ "\n"
              ++ "🕒 Last Updated: " ++ r.updatedAt
            = (("📄 Incident: " ++ r.number) ++ "\n")
              ++ ((("📝 Description: " ++ r.shortDescription) ++ "\n")
              ++ ((("📌 State: " ++ r.state) ++ "\n")
              ++ ((("⚠️ Priority: " ++ r.priority) ++ "\n")
              ++ ((("👤 Assigned To: " ++ "N/A") ++ "\n")
              ++ ("🕒 Last Updated: " ++ r.updatedAt))))) := by
          simp only [String.append_assoc]
        rw [hs, linesOf_cons _ _ (noNL_append _ _ (by decide) h1),
          linesOf_cons _ _ (noNL_append _ _ (by decide) h2),
          linesOf_cons _ _ (noNL_append _ _ (by decide) h3),
          linesOf_cons _ _ (noNL_append _ _ (by decide) h4),
          linesOf_cons _ _ (noNL_append _ _ (by decide) (by decide)),
          linesOf_single _ (noNL_append _ _ (by decide) h6)]
    · refine ⟨"📄 Incident: " ++ r.number ++ "\n"
        ++ "📝 Description: " ++ r.shortDescription ++ "\n"
        ++ "📌 State: " ++ r.state ++ "\n"
        ++ "⚠️ Priority: " ++ r.priority ++ "\n"
        ++ "👤 Assigned To: " ++ r.assignedTo ++ "\n"
        ++ "🕒 Last Updated: " ++ r.updatedAt, ?_, ?_⟩
      · simp [render, IncidentRecord.toDict, hasKey, lookupKey, dictSubscript, pyStr,
          Json.truthy, ha]
      · rw [if_neg ha]
        have hs : "📄 Incident: " ++ r.number ++ "\n"
              ++ "📝 Description: " ++ r.shortDescription ++ "\n"
              ++ "📌 State: " ++ r.state ++ "\n"
              ++ "⚠️ Priority: " ++ r.priority ++ "\n"
              ++ "👤 Assigned To: " ++ r.assignedTo ++ "\n"
              ++ "🕒 Last Updated: " ++ r.updatedAt
            = (("📄 Incident: " ++ r.number) ++ "\n")
              ++ ((("📝 Description: " ++ r.shortDescription) ++ "\n")
              ++ ((("📌 State: " ++ r.state) ++ "\n")
              ++ ((("⚠️ Priority: " ++ r.priority) ++ "\n")
              ++ ((("👤 Assigned To: " ++ r.assignedTo) ++ "\n")
              ++ ("🕒 Last Updated: " ++ r.updatedAt))))) := by
          simp only [String.append_assoc]
        rw [hs, linesOf_cons _ _ (noNL_append _ _ (by decide) h1),
          linesOf_cons _ _ (noNL_append _ _ (by decide) h2),
          linesOf_cons _ _ (noNL_append _ _ (by decide) h3),
          linesOf_cons _ _ (noNL_append _ _ (by decide) h4),
          linesOf_cons _ _ (noNL_append _ _ (by decide) h5),
          linesOf_single _ (noNL_append _ _ (by decide) h6)]
  · simp [render, hasKey, lookupKey, dictSubscript, pyStr]
  · exact linesOf_single _ (noNL_append _ _ (by decide) hm)

theorem render_template_witness :
    (∃ s, render (IncidentRecord.mk "INC0010001" "VPN down" "2" "1" "Bob"
        "2024-01-01 10:00:00").toDict = .ok s ∧
      linesOf s = ["📄 Incident: " ++ "INC0010001", "📝 Description: " ++ "VPN down",
        "📌 State: " ++ "2", "⚠️ Priority: " ++ "1",
        "👤 Assigned To: " ++ (if ("Bob" : String) = "" then "N/A" else "Bob"),
        "🕒 Last Updated: " ++ "2024-01-01 10:00:00"])
    ∧ render [("error", Json.str "Incident not found")]
        = .ok ("❌ " ++ "Incident not found")
    ∧ linesOf ("❌ " ++ "Incident not found") = ["❌ " ++ "Incident not found"] :=
  render_template (IncidentRecord.mk "INC0010001" "VPN down" "2" "1" "Bob"
      "2024-01-01 10:00:00") "Incident not found"
    (by decide) (by decide) (by decide) (by decide) (by decide) (by decide) (by decide)

/-- C8: whenever any of the four required inputs is empty, the credential
guard takes the else branch: no request is issued (the trace is empty), the
lookup core is never invoked, and the caller is shown the prompt asking for
the missing input. -/
theorem empty_input_no_network
    (agent : (String → List Request × Except PyExn String) → String →
      List Request × Except PyExn String)
    (transport : Request → HttpResponse)
    (instance_url username password incident_id : String)
    (h : incident_id = "" ∨ instance_url = "" ∨ username = "" ∨ password = "") :
    app agent transport instance_url username password incident_id
      = ([], .info "ℹ️ Please enter your ServiceNow credentials and an incident ID.") := by
  unfold app
  rcases h with h | h | h | h <;> simp [h]

theorem empty_input_no_network_witness :
    app (fun tool q => tool q) (fun _ => ⟨200, Json.null⟩) "" "admin" "secret" "INC1"
      = ([], .info "ℹ️ Please enter your ServiceNow credentials and an incident ID.") :=
  empty_input_no_network (fun tool q => tool q) (fun _ => ⟨200, Json.null⟩)
    "" "admin" "secret" "INC1" (Or.inr (Or.inl rfl))

/-- C9: the single-tool agent stage is logically a direct call of the
registered tool: runQuery on an identifier equals the completion service's
paraphrase applied to render of the fetch result for that identifier. -/
theorem runQuery_direct (paraphrase : String → String)
    (transport : Request → HttpResponse) (snow_api : ServiceNowAPIWrapper)
    (incident_id : String) :
    runQuery paraphrase transport snow_api incident_id
      = ((get_incident_status_traced transport snow_api incident_id).2.bind render).map
          paraphrase := rfl

/-- C10: on a 200 response with a non-empty result list headed by an object,
the five fields other than assignedTo are read from the first row with no
default: when such a key is absent from the row the corresponding record
field is the null value, the rendered text shows the text None at that
field's label, the value is not the string N/A, and no error entry exists. -/
theorem absent_field_null_rendered_none (transport : Request → HttpResponse)
    (self : ServiceNowAPIWrapper) (n : String)
    (bodykv rowkv : List (String × Json)) (rest : List Json)
    (hresp : transport (requestFor self n) = ⟨200, Json.obj bodykv⟩)
    (hres : lookupKey bodykv "result" = some (Json.arr (Json.obj rowkv :: rest))) :
    ∃ d s, (get_incident_status_traced transport self n).2 = .ok d ∧
      render d = .ok s ∧ hasKey d "error" = false ∧
      (lookupKey rowkv "number" = none →
        lookupKey d "Number" = some Json.null ∧ ∃ a b, s = a ++ "📄 Incident: None" ++ b) ∧
      (lookupKey rowkv "short_description" = none →
        lookupKey d "Short Description" = some Json.null ∧ ∃ a b, s = a ++ "📝 Description: None" ++ b) ∧
      (lookupKey rowkv "state" = none →
        lookupKey d "State" = some Json.null ∧ ∃ a b, s = a ++ "📌 State: None" ++ b) ∧
      (lookupKey rowkv "priority" = none →
        lookupKey d "Priority" = some Json.null ∧ ∃ a b, s = a ++ "⚠️ Priority: None" ++ b) ∧
      (lookupKey rowkv "sys_updated_on" = none →
        lookupKey d "Updated" = some Json.null ∧ ∃ a b, s = a ++ "🕒 Last Updated: None" ++ b) := by
  refine ⟨[("Number", (lookupKey rowkv "number").getD .null),
      ("Short Description", (lookupKey rowkv "short_description").getD .null),
      ("State", (lookupKey rowkv "state").getD .null),
      ("Priority", (lookupKey rowkv "priority").getD .null),
      ("Assigned To", normalize_assigned_to ((lookupKey rowkv "assigned_to").getD .null)),
      ("Updated", (lookupKey rowkv "sys_updated_on").getD .null)],
    "📄 Incident: " ++ pyStr ((lookupKey rowkv "number").getD .null) ++ "\n"
      ++ "📝 Description: " ++ pyStr ((lookupKey rowkv "short_description").getD .null) ++ "\n"
      ++ "📌 State: " ++ pyStr ((lookupKey rowkv "state").getD .null) ++ "\n"
      ++ "⚠️ Priority: " ++ pyStr ((lookupKey rowkv "priority").getD .null) ++ "\n"
      ++ "👤 Assigned To: " ++ pyStr (if (normalize_assigned_to ((lookupKey rowkv "assigned_to").getD .null)).truthy then normalize_assigned_to ((lookupKey rowkv "assigned_to").getD .null) else .str "N/A") ++ "\n"
      ++ "🕒 Last Updated: " ++ pyStr ((lookupKey rowkv "sys_updated_on").getD .null), ?_, ?_, ?_, ?_, ?_, ?_, ?_, ?_⟩
  · rw [get_incident_status_traced_eq, hresp]
    simp [get_incident_status_result, Json.pyGetD, hres, Json.truthy, pyIndex0, Json.pyGet]
  · simp [render, hasKey, lookupKey, dictSubscript]
  · simp [hasKey, lookupKey]
  · intro h
    refine ⟨by simp [lookupKey, h], "",
      "\n" ++ "📝 Description: " ++ pyStr ((lookupKey rowkv "short_description").getD .null) ++ "\n"
      ++ "📌 State: " ++ pyStr ((lookupKey rowkv "state").getD .null) ++ "\n"
      ++ "⚠️ Priority: " ++ pyStr ((lookupKey rowkv "priority").getD .null) ++ "\n"
      ++ "👤 Assigned To: " ++ pyStr (if (normalize_assigned_to ((lookupKey rowkv "assigned_to").getD .null)).truthy then normalize_assigned_to ((lookupKey rowkv "assigned_to").getD .null) else .str "N/A") ++ "\n"
      ++ "🕒 Last Updated: " ++ pyStr ((lookupKey rowkv "sys_updated_on").getD .null), ?_⟩
    apply String.ext
    simp [String.data_append, h, pyStr, pyRepr, List.append_assoc]
  · intro h
    refine ⟨by simp [lookupKey, h], "📄 Incident: " ++ pyStr ((lookupKey rowkv "number").getD .null) ++ "\n",
      "\n" ++ "📌 State: " ++ pyStr ((lookupKey rowkv "state").getD .null) ++ "\n"
      ++ "⚠️ Priority: " ++ pyStr ((lookupKey rowkv "priority").getD .null) ++ "\n"
      ++ "👤 Assigned To: " ++ pyStr (if (normalize_assigned_to ((lookupKey rowkv "assigned_to").getD .null)).truthy then normalize_assigned_to ((lookupKey rowkv "assigned_to").getD .null) else .str "N/A") ++ "\n"
      ++ "🕒 Last Updated: " ++ pyStr ((lookupKey rowkv "sys_updated_on").getD .null), ?_⟩
    apply String.ext
    simp [String.data_append, h, pyStr, pyRepr, List.append_assoc]
  · intro h
    refine ⟨by simp [lookupKey, h], "📄 Incident: " ++ pyStr ((lookupKey rowkv "number").getD .null) ++ "\n"
      ++ "📝 Description: " ++ pyStr ((lookupKey rowkv "short_description").getD .null) ++ "\n",
      "\n" ++ "⚠️ Priority: " ++ pyStr ((lookupKey rowkv "priority").getD .null) ++ "\n"
      ++ "👤 Assigned To: " ++ pyStr (if (normalize_assigned_to ((lookupKey rowkv "assigned_to").getD .null)).truthy then normalize_assigned_to ((lookupKey rowkv "assigned_to").getD .null) else .str "N/A") ++ "\n"
      ++ "🕒 Last Updated: " ++ pyStr ((lookupKey rowkv "sys_updated_on").getD .null), ?_⟩
    apply String.ext
    simp [String.data_append, h, pyStr, pyRepr, List.append_assoc]
  · intro h
    refine ⟨by simp [lookupKey, h], "📄 Incident: " ++ pyStr ((lookupKey rowkv "number").getD .null) ++ "\n"
      ++ "📝 Description: " ++ pyStr ((lookupKey rowkv "short_description").getD .null) ++ "\n"
      ++ "📌 State: " ++ pyStr ((lookupKey rowkv "state").getD .null) ++ "\n",
      "\n" ++ "👤 Assigned To: " ++ pyStr (if (normalize_assigned_to ((lookupKey rowkv "assigned_to").getD .null)).truthy then normalize_assigned_to ((lookupKey rowkv "assigned_to").getD .null) else .str "N/A") ++ "\n"
      ++ "🕒 Last Updated: " ++ pyStr ((lookupKey rowkv "sys_updated_on").getD .null), ?_⟩
    apply String.ext
    simp [String.data_append, h, pyStr, pyRepr, List.append_assoc]
  · intro h
    refine ⟨by simp [lookupKey, h], "📄 Incident: " ++ pyStr ((lookupKey rowkv "number").getD .null) ++ "\n"
      ++ "📝 Description: " ++ pyStr ((lookupKey rowkv "short_description").getD .null) ++ "\n"
      ++ "📌 State: " ++ pyStr ((lookupKey rowkv "state").getD .null) ++ "\n"
      ++ "⚠️ Priority: " ++ pyStr ((lookupKey rowkv "priority").getD .null) ++ "\n"
      ++ "👤 Assigned To: " ++ pyStr (if (normalize_assigned_to ((lookupKey rowkv "assigned_to").getD .null)).truthy then normalize_assigned_to ((lookupKey rowkv "assigned_to").getD .null) else .str "N/A") ++ "\n",
      "", ?_⟩
    apply String.ext
    simp [String.data_append, h, pyStr, pyRepr, List.append_assoc]

theorem absent_field_null_rendered_none_witness :
    ∃ d s, (get_incident_status_traced
        (fun _ => ⟨200, Json.obj [("result", Json.arr [Json.obj []])]⟩)
        (ServiceNowAPIWrapper.make "https://x" "u" "p") "INC1").2 = .ok d ∧
      render d = .ok s ∧ hasKey d "error" = false ∧
      (lookupKey ([] : List (String × Json)) "number" = none →
        lookupKey d "Number" = some Json.null ∧ ∃ a b, s = a ++ "📄 Incident: None" ++ b) ∧
      (lookupKey ([] : List (String × Json)) "short_description" = none →
        lookupKey d "Short Description" = some Json.null ∧ ∃ a b, s = a ++ "📝 Description: None" ++ b) ∧
      (lookupKey ([] : List (String × Json)) "state" = none →
        lookupKey d "State" = some Json.null ∧ ∃ a b, s = a ++ "📌 State: None" ++ b) ∧
      (lookupKey ([] : List (String × Json)) "priority" = none →
        lookupKey d "Priority" = some Json.null ∧ ∃ a b, s = a ++ "⚠️ Priority: None" ++ b) ∧
      (lookupKey ([] : List (String × Json)) "sys_updated_on" = none →
        lookupKey d "Updated" = some Json.null ∧ ∃ a b, s = a ++ "🕒 Last Updated: None" ++ b) :=
  absent_field_null_rendered_none
    (fun _ => ⟨200, Json.obj [("result", Json.arr [Json.obj []])]⟩)
    (ServiceNowAPIWrapper.make "https://x" "u" "p") "INC1"
    [("result", Json.arr [Json.obj []])] [] [] rfl rfl
